import Mathlib

/-!
Verification development for the porcupine repository
(`porcupine/editor.py` and `build-exe-installer.py`).

The Python source is shallowly embedded: each method relevant to a claim
becomes an executable Lean definition over explicit state; exceptions become
`Except`; side effects (dialogs, log records, subprocess invocations, file
system writes) become explicit event lists.
-/

set_option autoImplicit false

namespace Porcupine

/-! ## `Editor.open_files` (editor.py lines 288-307)

```python
for path in dialogs.open_files(defaultdir):
    try:
        encoding = config["Files", "encoding"]
        with open(path, encoding=encoding) as f:
            tab = tabs.FileTab(self.tabmanager, f.read(), path=path)
    except (OSError, UnicodeError) as e:
        log.exception("opening '%s' failed", path)
        utils.errordialog(type(e).__name__, "Opening failed!",
                          traceback.format_exc())
        continue
    utils.copy_bindings(self, tab.textwidget)
    self.tabmanager.add_tab(tab, make_current=True)
```

The list of chosen paths (the return value of `dialogs.open_files`) is an
input of the model.  Opening a path is modelled by an environment function
`env : String -> OpenResult`: the body of the `try` block either produces the
file's content, raises an `OSError`, raises a `UnicodeError`, or raises some
exception of any other class. -/

/-- Outcome of executing the `try` body of `open_files` for one path. -/
inductive OpenResult where
  | ok (content : String)
  | osError
  | unicodeError
  | otherError
  deriving DecidableEq

/-- `type(e).__name__` for the two caught exception classes. -/
def excName : OpenResult → String
  | .osError => "OSError"
  | .unicodeError => "UnicodeError"
  | _ => ""

/-- Observable side effects of `open_files` other than tab-manager updates:
the `log.exception("opening '%s' failed", path)` record and the
`utils.errordialog(type(e).__name__, "Opening failed!", traceback)` call,
where the traceback text is of the failed open of `path`. -/
inductive UiEvent where
  | logFailure (path : String)
  | errorDialog (title : String) (message : String) (tracebackPath : String)
  deriving DecidableEq

/-- The state `open_files` reads and mutates: the tab manager's tab list
(each `FileTab` carries its path and initial content), the current tab, and
the emitted UI events. -/
structure OFState where
  tabs : List (String × String)
  current : Option (String × String)
  events : List UiEvent
  deriving DecidableEq

/-- The events appended when opening `path` raises result `r` (one of the two
caught classes): the log record and the modal error dialog. -/
def failureEvents (r : OpenResult) (path : String) : List UiEvent :=
  [.logFailure path, .errorDialog (excName r) "Opening failed!" path]

/-- The `for path in ...` loop of `Editor.open_files`.  `Except.error s`
means an exception escaped the loop uncaught, leaving state `s` behind;
`Except.ok s` means the loop finished normally. -/
def open_files_loop (env : String → OpenResult) :
    List String → OFState → Except OFState OFState
  | [], s => .ok s
  | path :: rest, s =>
    match env path with
    | .ok content =>
        open_files_loop env rest
          { s with
            tabs := s.tabs ++ [(path, content)],
            current := some (path, content) }
    | .osError =>
        open_files_loop env rest
          { s with events := s.events ++ failureEvents .osError path }
    | .unicodeError =>
        open_files_loop env rest
          { s with events := s.events ++ failureEvents .unicodeError path }
    | .otherError => .error s

/-- `Editor.open_files` on the chosen paths, started from state `s`. -/
def open_files (env : String → OpenResult) (chosenPaths : List String)
    (s : OFState) : Except OFState OFState :=
  open_files_loop env chosenPaths s

/-- C1: For every path for which opening the file fails (an `OSError`, e.g. a
nonexistent file, or a `UnicodeError`), `Editor.open_files` logs the failure
and shows an error dialog for that path, adds no tab for it (the tab list and
current tab are untouched at that step), and processing continues with the
remaining chosen paths. -/
theorem open_files_failed_path_skips_tab_and_continues
    (env : String → OpenResult) (path : String) (rest : List String)
    (s : OFState)
    (h : env path = .osError ∨ env path = .unicodeError) :
    open_files env (path :: rest) s =
      open_files env rest
        { s with events := s.events ++ failureEvents (env path) path } ∧
    ({ s with events := s.events ++ failureEvents (env path) path } : OFState).tabs
      = s.tabs ∧
    ({ s with events := s.events ++ failureEvents (env path) path } : OFState).current
      = s.current := by
  rcases h with h | h <;>
    simp [open_files, open_files_loop, h]

theorem open_files_failed_path_skips_tab_and_continues_witness :
    ((fun _ : String => OpenResult.osError) "missing.txt" = .osError ∨
      (fun _ : String => OpenResult.osError) "missing.txt" = .unicodeError) ∧
    (open_files (fun _ => OpenResult.osError) ["missing.txt", "b.py"]
        ⟨[], none, []⟩ =
      open_files (fun _ => OpenResult.osError) ["b.py"]
        ⟨[], none, failureEvents .osError "missing.txt"⟩ ∧
      (⟨[], none, failureEvents .osError "missing.txt"⟩ : OFState).tabs = [] ∧
      (⟨[], none, failureEvents .osError "missing.txt"⟩ : OFState).current = none) := by
  refine ⟨Or.inl rfl, ?_⟩
  have h := open_files_failed_path_skips_tab_and_continues
    (fun _ => OpenResult.osError) "missing.txt" ["b.py"]
    ⟨[], none, []⟩ (Or.inl rfl)
  simpa using h

/-- C2: `Editor.open_files` catches exactly `OSError` and `UnicodeError`
raised while opening a chosen file — each such failure is surfaced via a
modal error dialog and the loop goes on — while an exception of any other
class is not caught there: it propagates immediately, with no dialog shown,
no tab added, and the remaining paths unprocessed. -/
theorem open_files_catches_exactly_oserror_unicodeerror
    (env : String → OpenResult) (path : String) (rest : List String)
    (s : OFState) :
    ((env path = .osError ∨ env path = .unicodeError) →
      open_files env (path :: rest) s =
        open_files env rest
          { s with events := s.events ++ failureEvents (env path) path }) ∧
    (env path = .otherError →
      open_files env (path :: rest) s = .error s) := by
  constructor
  · rintro (h | h) <;> simp [open_files, open_files_loop, h]
  · intro h
    simp [open_files, open_files_loop, h]

theorem open_files_catches_exactly_oserror_unicodeerror_witness :
    open_files (fun _ => OpenResult.otherError) ["a.py", "b.py"]
        ⟨[], none, []⟩ = .error ⟨[], none, []⟩ :=
  (open_files_catches_exactly_oserror_unicodeerror
    (fun _ => OpenResult.otherError) "a.py" ["b.py"] ⟨[], none, []⟩).2 rfl

end Porcupine

namespace Porcupine

/-! ## `Editor.get_menu` (editor.py lines 76-105)

```python
current_menu = self.menubar
for label in label_path.split('/'):
    try:
        current_menu = self._submenus[(current_menu, label)]
    except KeyError:
        submenu = tk.Menu(tearoff=False)
        if current_menu is self.menubar:
            index = current_menu.index('end')
            if index is None:
                index = 0
            current_menu.insert_cascade(index, label=label, menu=submenu)
        else:
            current_menu.add_cascade(label=label, menu=submenu)
        self._submenus[(current_menu, label)] = submenu
        current_menu = submenu
return current_menu
```

tk menu widgets are modelled by identifiers (allocated from a counter, as tk
allocates fresh widgets), the `_submenus` dict by an association list keyed
on `(menu, label)` pairs, and the menu tree by each menu's entry list.
`index('end')` returns the index of the last entry, or `None` for an empty
menu; `insert_cascade(i, ...)` inserts before position `i`;
`add_cascade` appends. -/

/-- A tk menu widget's identity. -/
abbrev MenuId := Nat

/-- One entry of a tk menu. -/
inductive MenuEntry where
  | cascade (label : String) (menu : MenuId)
  | separator
  | commandEntry (label : String) (accelerator : Option String)
  | radiobutton (label : String)
  deriving DecidableEq

/-- Dict lookup in `_submenus` (first match; keys are never duplicated
because insertion happens only in the `KeyError` branch). -/
def lookupSubmenu : List ((MenuId × String) × MenuId) → MenuId × String → Option MenuId
  | [], _ => none
  | e :: rest, k => if e.1 = k then some e.2 else lookupSubmenu rest k

/-- The entry list of menu `m` (a fresh tk menu has no entries). -/
def lookupEntries : List (MenuId × List MenuEntry) → MenuId → List MenuEntry
  | [], _ => []
  | e :: rest, m => if e.1 = m then e.2 else lookupEntries rest m

/-- Replace (or create) the entry list of menu `m`. -/
def setEntries : List (MenuId × List MenuEntry) → MenuId → List MenuEntry →
    List (MenuId × List MenuEntry)
  | [], m, es => [(m, es)]
  | e :: rest, m, es =>
    if e.1 = m then (m, es) :: rest else e :: setEntries rest m es

/-- `insert_cascade(i, ...)`: insert before position `i`. -/
def insertEntryAt (es : List MenuEntry) (i : Nat) (entry : MenuEntry) :
    List MenuEntry :=
  es.take i ++ entry :: es.drop i

/-- The menu-related state of the `Editor`: the menubar widget, the
`_submenus` dict, each menu's entry list (the menu tree), and the next
fresh widget id. -/
structure MenuState where
  menubar : MenuId
  submenus : List ((MenuId × String) × MenuId)
  entries : List (MenuId × List MenuEntry)
  nextId : MenuId
  deriving DecidableEq

/-- One iteration of the `for label in label_path.split('/')` loop of
`get_menu`, starting at menu `cur`. -/
def get_menu_step (s : MenuState) (cur : MenuId) (label : String) :
    MenuId × MenuState :=
  match lookupSubmenu s.submenus (cur, label) with
  | some m => (m, s)
  | none =>
    let submenu := s.nextId
    let es := lookupEntries s.entries cur
    let es' :=
      if cur = s.menubar then
        insertEntryAt es (if es.isEmpty then 0 else es.length - 1)
          (.cascade label submenu)
      else
        es ++ [.cascade label submenu]
    (submenu,
      { s with
        submenus := ((cur, label), submenu) :: s.submenus,
        entries := setEntries s.entries cur es',
        nextId := s.nextId + 1 })

/-- The loop of `get_menu` over the split labels. -/
def get_menu_aux : MenuState → MenuId → List String → MenuId × MenuState
  | s, cur, [] => (cur, s)
  | s, cur, label :: rest =>
    get_menu_aux (get_menu_step s cur label).2 (get_menu_step s cur label).1 rest

/-- `Editor.get_menu(label_path)`: returns the submenu and the updated
editor menu state. -/
def get_menu (s : MenuState) (label_path : String) : MenuId × MenuState :=
  get_menu_aux s s.menubar (label_path.splitOn "/")

theorem lookupSubmenu_step_mono (s : MenuState) (cur : MenuId) (label : String)
    (k : MenuId × String) (v : MenuId)
    (h : lookupSubmenu s.submenus k = some v) :
    lookupSubmenu (get_menu_step s cur label).2.submenus k = some v := by
  unfold get_menu_step
  cases hl : lookupSubmenu s.submenus (cur, label) with
  | some m => simpa using h
  | none =>
    simp only [lookupSubmenu]
    by_cases hk : (cur, label) = k
    · subst hk
      rw [h] at hl
      exact absurd hl (by simp)
    · simp [hk, h]

theorem lookupSubmenu_step_self (s : MenuState) (cur : MenuId) (label : String) :
    lookupSubmenu (get_menu_step s cur label).2.submenus (cur, label) =
      some (get_menu_step s cur label).1 := by
  unfold get_menu_step
  cases hl : lookupSubmenu s.submenus (cur, label) with
  | some m => simpa using hl
  | none => simp [lookupSubmenu]

theorem get_menu_step_menubar (s : MenuState) (cur : MenuId) (label : String) :
    (get_menu_step s cur label).2.menubar = s.menubar := by
  unfold get_menu_step
  cases hl : lookupSubmenu s.submenus (cur, label) <;> simp

theorem get_menu_step_of_found (s : MenuState) (cur : MenuId) (label : String)
    (m : MenuId) (h : lookupSubmenu s.submenus (cur, label) = some m) :
    get_menu_step s cur label = (m, s) := by
  unfold get_menu_step
  rw [h]

theorem lookupSubmenu_aux_mono (labels : List String) :
    ∀ (s : MenuState) (cur : MenuId) (k : MenuId × String) (v : MenuId),
      lookupSubmenu s.submenus k = some v →
      lookupSubmenu (get_menu_aux s cur labels).2.submenus k = some v := by
  induction labels with
  | nil => intro s cur k v h; exact h
  | cons label rest ih =>
    intro s cur k v h
    exact ih _ _ _ _ (lookupSubmenu_step_mono s cur label k v h)

theorem get_menu_aux_menubar (labels : List String) :
    ∀ (s : MenuState) (cur : MenuId),
      (get_menu_aux s cur labels).2.menubar = s.menubar := by
  induction labels with
  | nil => intro s cur; rfl
  | cons label rest ih =>
    intro s cur
    rw [get_menu_aux, ih]
    exact get_menu_step_menubar s cur label

theorem get_menu_aux_idem (labels : List String) :
    ∀ (s : MenuState) (cur : MenuId),
      get_menu_aux (get_menu_aux s cur labels).2 cur labels =
        get_menu_aux s cur labels := by
  induction labels with
  | nil => intro s cur; rfl
  | cons label rest ih =>
    intro s cur
    rw [get_menu_aux]
    have hfound :
        lookupSubmenu (get_menu_aux (get_menu_step s cur label).2
            (get_menu_step s cur label).1 rest).2.submenus (cur, label) =
          some (get_menu_step s cur label).1 :=
      lookupSubmenu_aux_mono rest _ _ _ _ (lookupSubmenu_step_self s cur label)
    conv_lhs => rw [get_menu_aux, get_menu_step_of_found _ _ _ _ hfound]
    exact ih (get_menu_step s cur label).2 (get_menu_step s cur label).1

/-- C7: `Editor.get_menu` is idempotent: a second call with the same
`label_path` returns the same submenu widget as the first call and leaves
the whole menu state — the `_submenus` table, every menu's entry list, and
the widget counter — unchanged. -/
theorem get_menu_idempotent (s : MenuState) (label_path : String) :
    get_menu (get_menu s label_path).2 label_path = get_menu s label_path := by
  unfold get_menu
  rw [get_menu_aux_menubar]
  exact get_menu_aux_idem _ s s.menubar

end Porcupine

namespace Porcupine

/-! ## `Editor.do_quit` (editor.py lines 317-329)

```python
def do_quit(self):
    for tab in self.tabmanager.tabs:
        if not tab.can_be_closed():
            return
        # the tabs must not be closed here, otherwise some of them
        # are closed if not all tabs can be closed
    # this also invokes self.tabmanager.destroy(), and that closes
    # all open tabs
    self.destroy()
    if self.destroy_callback is not None:
        self.destroy_callback()
```
-/

/-- A tab as `do_quit` sees it: only its `can_be_closed()` answer matters. -/
structure QTab where
  canBeClosed : Bool
  deriving DecidableEq

/-- The editor state `do_quit` touches: the tab manager's tab list, whether
the editor widget has been destroyed (destroying it closes all open tabs),
and whether `destroy_callback` has been called. -/
structure QuitState where
  tabs : List QTab
  destroyed : Bool
  destroyCallbackRan : Bool
  deriving DecidableEq

/-- The `for tab in self.tabmanager.tabs` loop: `false` means some tab
answered `can_be_closed() == False` and `do_quit` returned early. -/
def do_quit_check : List QTab → Bool
  | [] => true
  | tab :: rest => if !tab.canBeClosed then false else do_quit_check rest

/-- `Editor.do_quit`.  `hasCallback` is whether `destroy_callback` is not
`None`; destroying the editor closes every open tab. -/
def do_quit (hasCallback : Bool) (s : QuitState) : QuitState :=
  if do_quit_check s.tabs then
    { s with tabs := [], destroyed := true,
             destroyCallbackRan := s.destroyCallbackRan || hasCallback }
  else s

theorem do_quit_check_eq_all (tabs : List QTab) :
    do_quit_check tabs = tabs.all (·.canBeClosed) := by
  induction tabs with
  | nil => rfl
  | cons tab rest ih =>
    cases h : tab.canBeClosed <;> simp [do_quit_check, h, ih]

/-- C6: `Editor.do_quit` is atomic with respect to tabs: if any open tab
reports it cannot be closed, `do_quit` returns with the state completely
unchanged — no tab closed, the editor not destroyed, `destroy_callback` not
called; only when every open tab can be closed is the editor destroyed (which
closes all tabs) and, when present, `destroy_callback` run. -/
theorem do_quit_atomic (hasCallback : Bool) (s : QuitState) :
    ((∃ tab ∈ s.tabs, tab.canBeClosed = false) →
      do_quit hasCallback s = s) ∧
    ((∀ tab ∈ s.tabs, tab.canBeClosed = true) →
      (do_quit hasCallback s).destroyed = true ∧
      (do_quit hasCallback s).tabs = [] ∧
      (do_quit hasCallback s).destroyCallbackRan =
        (s.destroyCallbackRan || hasCallback)) := by
  constructor
  · rintro ⟨tab, hmem, hcant⟩
    have hcheck : do_quit_check s.tabs = false := by
      rw [do_quit_check_eq_all]
      cases hx : s.tabs.all (·.canBeClosed) with
      | false => rfl
      | true =>
        rw [List.all_eq_true] at hx
        exact absurd (hx tab hmem) (by simp [hcant])
    simp [do_quit, hcheck]
  · intro hall
    have hcheck : do_quit_check s.tabs = true := by
      rw [do_quit_check_eq_all]
      simp only [List.all_eq_true]
      exact hall
    simp [do_quit, hcheck]

theorem do_quit_atomic_witness :
    ((∃ tab ∈ [QTab.mk true, QTab.mk false], tab.canBeClosed = false) ∧
      do_quit true ⟨[QTab.mk true, QTab.mk false], false, false⟩ =
        ⟨[QTab.mk true, QTab.mk false], false, false⟩) ∧
    ((∀ tab ∈ [QTab.mk true], tab.canBeClosed = true) ∧
      (do_quit true ⟨[QTab.mk true], false, false⟩).destroyed = true ∧
      (do_quit true ⟨[QTab.mk true], false, false⟩).tabs = [] ∧
      (do_quit true ⟨[QTab.mk true], false, false⟩).destroyCallbackRan =
        (false || true)) := by
  constructor
  · exact ⟨⟨QTab.mk false, by simp, rfl⟩,
      (do_quit_atomic true ⟨[QTab.mk true, QTab.mk false], false, false⟩).1
        ⟨QTab.mk false, by simp, rfl⟩⟩
  · exact ⟨by simp,
      (do_quit_atomic true ⟨[QTab.mk true], false, false⟩).2 (by simp)⟩

end Porcupine

namespace Porcupine

/-! ## Edit-menu text operations (editor.py lines 177-200)

```python
def textmethod(attribute):
    def result():
        textwidget = self.tabmanager.current_tab.textwidget
        method = getattr(textwidget, attribute)
        method()
    return result

add(textmethod('undo'), "Edit/Undo", "Ctrl+Z", '<Control-z>', [tabs.FileTab])
add(textmethod('redo'), "Edit/Redo", "Ctrl+Y", '<Control-y>', [tabs.FileTab])
add(textmethod('cut'), "Edit/Cut", "Ctrl+X", '<Control-x>', [tabs.FileTab])
add(textmethod('copy'), "Edit/Copy", "Ctrl+C", '<Control-c>', [tabs.FileTab])
add(textmethod('paste'), "Edit/Paste", "Ctrl+V", '<Control-v>', [tabs.FileTab])
add(textmethod('select_all'), "Edit/Select All", "Ctrl+A", '<Control-a>',
    [tabs.FileTab])
add((lambda: self.tabmanager.current_tab.find()),
    "Edit/Find and Replace", "Ctrl+F", '<Control-f>', [tabs.FileTab])
```

Invoking a callback is modelled by the list of method calls it performs on
objects outside the `Editor` class. -/

/-- The identity of a `FileTab` object (it owns one text widget). -/
structure FTab where
  id : Nat
  deriving DecidableEq

/-- A method call performed by an action callback: on the current tab's text
widget (`current_tab.textwidget.m()`) or on the current tab itself
(`current_tab.m()`). -/
inductive CallEff where
  | textWidgetCall (tab : FTab) (method : String)
  | tabCall (tab : FTab) (method : String)
  deriving DecidableEq

/-- The editor state an Edit-menu callback reads: the tab manager's current
tab. -/
structure EdState where
  currentTab : Option FTab
  deriving DecidableEq

/-- Python `AttributeError`, raised when `current_tab` is `None` and a method
is looked up on it. -/
inductive PyAttrErr where
  | attributeError
  deriving DecidableEq

/-- `textmethod(attribute)`: the returned closure calls the method named
`attribute` on `self.tabmanager.current_tab.textwidget` and does nothing
else. -/
def textmethod (attributeName : String) (st : EdState) :
    Except PyAttrErr (List CallEff) :=
  match st.currentTab with
  | none => .error .attributeError
  | some tab => .ok [.textWidgetCall tab attributeName]

/-- `lambda: self.tabmanager.current_tab.find()`. -/
def find_action (st : EdState) : Except PyAttrErr (List CallEff) :=
  match st.currentTab with
  | none => .error .attributeError
  | some tab => .ok [.tabCall tab "find"]

/-- The Edit-menu text-operation actions exactly as `_setup_menus` registers
them: menu path paired with the registered callback. -/
def edit_menu_actions : List (String × (EdState → Except PyAttrErr (List CallEff))) :=
  [("Edit/Undo", textmethod "undo"),
   ("Edit/Redo", textmethod "redo"),
   ("Edit/Cut", textmethod "cut"),
   ("Edit/Copy", textmethod "copy"),
   ("Edit/Paste", textmethod "paste"),
   ("Edit/Select All", textmethod "select_all"),
   ("Edit/Find and Replace", find_action)]

/-- C5: each Edit-menu text operation delegates to the widget owned by the
current tab: the action registered at "Edit/X" performs exactly one call,
of the same-named method x, on the current tab's text widget (`find` is
called on the tab itself), and performs no other work in the `Editor`
class. -/
theorem edit_menu_actions_delegate (st : EdState) (tab : FTab)
    (h : st.currentTab = some tab) :
    (("Edit/Undo", textmethod "undo") ∈ edit_menu_actions ∧
      textmethod "undo" st = .ok [.textWidgetCall tab "undo"]) ∧
    (("Edit/Redo", textmethod "redo") ∈ edit_menu_actions ∧
      textmethod "redo" st = .ok [.textWidgetCall tab "redo"]) ∧
    (("Edit/Cut", textmethod "cut") ∈ edit_menu_actions ∧
      textmethod "cut" st = .ok [.textWidgetCall tab "cut"]) ∧
    (("Edit/Copy", textmethod "copy") ∈ edit_menu_actions ∧
      textmethod "copy" st = .ok [.textWidgetCall tab "copy"]) ∧
    (("Edit/Paste", textmethod "paste") ∈ edit_menu_actions ∧
      textmethod "paste" st = .ok [.textWidgetCall tab "paste"]) ∧
    (("Edit/Find and Replace", find_action) ∈ edit_menu_actions ∧
      find_action st = .ok [.tabCall tab "find"]) := by
  refine ⟨⟨?_, ?_⟩, ⟨?_, ?_⟩, ⟨?_, ?_⟩, ⟨?_, ?_⟩, ⟨?_, ?_⟩, ⟨?_, ?_⟩⟩ <;>
    simp [edit_menu_actions, textmethod, find_action, h]

theorem edit_menu_actions_delegate_witness :
    (("Edit/Undo", textmethod "undo") ∈ edit_menu_actions ∧
      textmethod "undo" ⟨some ⟨0⟩⟩ = .ok [.textWidgetCall ⟨0⟩ "undo"]) ∧
    (("Edit/Redo", textmethod "redo") ∈ edit_menu_actions ∧
      textmethod "redo" ⟨some ⟨0⟩⟩ = .ok [.textWidgetCall ⟨0⟩ "redo"]) ∧
    (("Edit/Cut", textmethod "cut") ∈ edit_menu_actions ∧
      textmethod "cut" ⟨some ⟨0⟩⟩ = .ok [.textWidgetCall ⟨0⟩ "cut"]) ∧
    (("Edit/Copy", textmethod "copy") ∈ edit_menu_actions ∧
      textmethod "copy" ⟨some ⟨0⟩⟩ = .ok [.textWidgetCall ⟨0⟩ "copy"]) ∧
    (("Edit/Paste", textmethod "paste") ∈ edit_menu_actions ∧
      textmethod "paste" ⟨some ⟨0⟩⟩ = .ok [.textWidgetCall ⟨0⟩ "paste"]) ∧
    (("Edit/Find and Replace", find_action) ∈ edit_menu_actions ∧
      find_action ⟨some ⟨0⟩⟩ = .ok [.tabCall ⟨0⟩ "find"]) :=
  edit_menu_actions_delegate ⟨some ⟨0⟩⟩ ⟨0⟩ rfl

end Porcupine

namespace Porcupine

/-! ## `Editor.add_action` keyboard-binding dispatch (editor.py lines 107-163)

```python
tabtypes = tuple((
    # isinstance(None, type(None)) is True
    type(None) if cls is None else cls
    for cls in tabtypes
))
...
if binding is not None:
    def bind_callback(event):
        if isinstance(self.tabmanager.current_tab, tabtypes):
            callback()
            return 'break'
    self.bind(binding, bind_callback)
```

The tab class hierarchy of `porcupine.tabs` has `FileTab` deriving from
`Tab`; `self.tabmanager.current_tab` is `None` when no tab is open. -/

/-- A concrete tab class: `tabs.Tab` or its subclass `tabs.FileTab`. -/
inductive TabClass where
  | tab
  | fileTab
  deriving DecidableEq

/-- Python `issubclass` on the tab class hierarchy. -/
def isSubclassOf : TabClass → TabClass → Bool
  | _, .tab => true
  | .fileTab, .fileTab => true
  | .tab, .fileTab => false

/-- An element of the converted `tabtypes` tuple: `type(None)` or a tab
class. -/
inductive ConvTy where
  | noneType
  | cls (c : TabClass)
  deriving DecidableEq

/-- Lines 132-136: `type(None) if cls is None else cls` over the `tabtypes`
argument (whose elements are `None` or a `Tab` subclass). -/
def convertTabtypes (tabtypes : List (Option TabClass)) : List ConvTy :=
  tabtypes.map (fun t => match t with | none => ConvTy.noneType | some c => ConvTy.cls c)

/-- `isinstance(cur, t)` for `cur` the current tab (`none` when no tab is
open) and `t` one converted tuple element: `isinstance(None, type(None))`
is `True`, and a tab object is an instance of a class iff its class is that
class or a subclass of it. -/
def pyIsinstance (cur : Option TabClass) (t : ConvTy) : Bool :=
  match cur, t with
  | none, .noneType => true
  | none, .cls _ => false
  | some _, .noneType => false
  | some c, .cls target => isSubclassOf c target

/-- Outcome of one firing of `bind_callback`: whether the registered
callback ran, and the tk handler's return value (`'break'`, or `None` from
falling off the end). -/
structure BindOutcome where
  invoked : Bool
  result : Option String
  deriving DecidableEq

/-- `bind_callback` (lines 156-163): `isinstance(current_tab, tabtypes)`
with a tuple is a disjunction over the tuple's elements. -/
def bind_callback (tabtypes : List (Option TabClass)) (cur : Option TabClass) :
    BindOutcome :=
  if (convertTabtypes tabtypes).any (pyIsinstance cur) then
    ⟨true, some "break"⟩
  else
    ⟨false, none⟩

/-- Compatibility as the claim words it: the current tab is an instance of
one of the listed tab types, where `None` in `tabtypes` means "no tab is
open".  Stated from the claim for comparison with `bind_callback`. -/
def specCompatible (tabtypes : List (Option TabClass)) (cur : Option TabClass) :
    Prop :=
  match cur with
  | none => none ∈ tabtypes
  | some c => ∃ target, some target ∈ tabtypes ∧ isSubclassOf c target = true

theorem any_pyIsinstance_iff (tabtypes : List (Option TabClass))
    (cur : Option TabClass) :
    (convertTabtypes tabtypes).any (pyIsinstance cur) = true ↔
      specCompatible tabtypes cur := by
  cases cur with
  | none =>
    simp only [convertTabtypes, specCompatible, List.any_eq_true, List.mem_map]
    constructor
    · rintro ⟨t, ⟨o, ho, rfl⟩, hp⟩
      cases o with
      | none => exact ho
      | some c => simp [pyIsinstance] at hp
    · intro h
      exact ⟨.noneType, ⟨none, h, rfl⟩, rfl⟩
  | some c =>
    simp only [convertTabtypes, specCompatible, List.any_eq_true, List.mem_map]
    constructor
    · rintro ⟨t, ⟨o, ho, rfl⟩, hp⟩
      cases o with
      | none => simp [pyIsinstance] at hp
      | some target => exact ⟨target, ho, hp⟩
    · rintro ⟨target, hmem, hsub⟩
      exact ⟨.cls target, ⟨some target, hmem, rfl⟩, hsub⟩

/-- C8: for an action registered with a keyboard binding and a `tabtypes`
restriction, triggering the binding invokes the callback if and only if the
tab manager's current tab is an instance of one of the listed tab types
(`None` in `tabtypes` meaning no tab is open); with an incompatible current
tab the callback does not run. -/
theorem bind_callback_invokes_iff (tabtypes : List (Option TabClass))
    (cur : Option TabClass) :
    (bind_callback tabtypes cur).invoked = true ↔ specCompatible tabtypes cur := by
  rw [← any_pyIsinstance_iff]
  unfold bind_callback
  by_cases h : (convertTabtypes tabtypes).any (pyIsinstance cur) = true
  · simp [h]
  · simp only [Bool.not_eq_true] at h
    simp [h]

end Porcupine

namespace Porcupine

/-! ## `build-exe-installer.py`

```python
def get_frozen_requirements_in_a_crazy_way():
    subprocess.check_call([sys.executable, '-m', 'venv', 'temp_env'])
    try:
        subprocess.check_call([
            r'temp_env\Scripts\python.exe', '-m',
            'pip', 'install', '-r', 'requirements.txt'])
        frozen = subprocess.check_output([
            r'temp_env\Scripts\python.exe', '-m', 'pip', 'freeze'
        ]).decode('utf-8').strip().splitlines()
    finally:
        shutil.rmtree('temp_venv')
    ...

def create_pynsist_cfg():
    parser['Application'] = {..., 'version': find_metadata()['version'], ...}
    parser['Include'] = {
        'pypi_wheels': '\n'.join(get_frozen_requirements_in_a_crazy_way()), ...}
    with open('pynsist.cfg', 'w') as file:
        parser.write(file)

def run_pynsist():
    subprocess.check_call([sys.executable, '-m', 'nsist', 'pynsist.cfg'])

def main():
    create_pynsist_cfg()
    run_pynsist()
```

The script is modelled by the trace of its externally visible actions.
`python -m venv temp_env` creates the directory `temp_env`;
`shutil.rmtree(p)` raises `FileNotFoundError` when `p` does not exist.
(`get_requirements()`, which reads `requirements.txt` directly, is dead code
in this script: `requirements.txt` is consumed via the `pip install -r`
subprocess.) -/

/-- One externally visible action of the installer script. -/
inductive FxEv where
  | runCommand (args : List String)
  | captureOutput (args : List String)
  | readFile (path : String)
  | writeFile (path : String)
  | removeTree (path : String)
  deriving DecidableEq

/-- The exceptions the script's execution can raise uncaught. -/
inductive PyScriptExc where
  | fileNotFoundError
  | calledProcessError (code : Nat)
  deriving DecidableEq

/-- The Python interpreter of the created venv. -/
def venvPython : String := "temp_env\\Scripts\\python.exe"

/-- `find_metadata()` reads `porcupine/__init__.py`. -/
def find_metadata_events : List FxEv := [.readFile "porcupine/__init__.py"]

/-- The actions of `get_frozen_requirements_in_a_crazy_way()` up to and
including the `finally` clause's `shutil.rmtree('temp_venv')` attempt. -/
def get_frozen_requirements_events : List FxEv :=
  [.runCommand ["python", "-m", "venv", "temp_env"],
   .runCommand [venvPython, "-m", "pip", "install", "-r", "requirements.txt"],
   .captureOutput [venvPython, "-m", "pip", "freeze"],
   .removeTree "temp_venv"]

/-- The directories present in the working directory when the script
starts. -/
structure World where
  dirs : List String
  deriving DecidableEq

/-- `main()` of build-exe-installer.py run with no arguments, with every
subprocess succeeding except that `python -m nsist` exits with status
`nsistExit`.  `Except.ok` carries the trace of a run that fell off the end of
`main()`; `Except.error` carries the uncaught exception and the actions that
happened before it. -/
def installer_main (w : World) (nsistExit : Nat) :
    Except (PyScriptExc × List FxEv) (List FxEv) :=
  let preEvents := find_metadata_events ++ get_frozen_requirements_events
  if "temp_venv" ∈ w.dirs ++ ["temp_env"] then
    let invoked := preEvents ++
      [FxEv.writeFile "pynsist.cfg",
       FxEv.runCommand ["python", "-m", "nsist", "pynsist.cfg"]]
    if nsistExit = 0 then .ok invoked
    else .error (.calledProcessError nsistExit, invoked)
  else
    .error (.fileNotFoundError, preEvents)

/-- C3: in a working directory with the repository's files and no stale
`temp_venv` directory — and the script itself only ever creates `temp_env` —
`main()` raises `FileNotFoundError` from `shutil.rmtree('temp_venv')` in the
`finally` clause: it reads the metadata and runs the venv/pip commands, but
it never writes `pynsist.cfg` and never invokes `python -m nsist`, contrary
to the claimed behavior. -/
theorem installer_crashes_before_writing_cfg :
    installer_main ⟨["porcupine"]⟩ 0 =
      .error (.fileNotFoundError,
        find_metadata_events ++ get_frozen_requirements_events) ∧
    FxEv.writeFile "pynsist.cfg" ∉
      find_metadata_events ++ get_frozen_requirements_events ∧
    FxEv.runCommand ["python", "-m", "nsist", "pynsist.cfg"] ∉
      find_metadata_events ++ get_frozen_requirements_events := by
  refine ⟨?_, ?_, ?_⟩
  · rfl
  · decide
  · decide

/-- `subprocess.check_call`: returns on exit status 0, raises
`CalledProcessError` carrying the status otherwise. -/
def check_call_exit (exitCode : Nat) : Except PyScriptExc Unit :=
  if exitCode = 0 then .ok () else .error (.calledProcessError exitCode)

/-- `run_pynsist()`: `check_call([sys.executable, '-m', 'nsist',
'pynsist.cfg'])`, whose subprocess exits with status `nsistExit`. -/
def run_pynsist (nsistExit : Nat) : Except PyScriptExc Unit :=
  check_call_exit nsistExit

/-- The script's own exit status as a function of the packaging command's:
falling off the end of `main()` exits 0; an uncaught exception makes the
interpreter exit with status 1. -/
def installer_exit_status (nsistExit : Nat) : Nat :=
  match run_pynsist nsistExit with
  | .ok _ => 0
  | .error _ => 1

/-- C4 counterexample: when `python -m nsist` exits with status 2, the script
terminates with status 1, not 2 — the claim that the script's exit status
always equals the packaging tool's fails. -/
theorem installer_exit_status_cex :
    installer_exit_status 2 = 1 ∧ installer_exit_status 2 ≠ 2 := by
  decide

/-- C4 (amended): the script exits 0 exactly when the packaging tool exits 0;
any nonzero tool exit raises `CalledProcessError`, which is uncaught, so the
script terminates with exit status 1 regardless of which nonzero status the
tool returned. -/
theorem installer_exit_status_amended (nsistExit : Nat) :
    installer_exit_status nsistExit = if nsistExit = 0 then 0 else 1 := by
  unfold installer_exit_status run_pynsist check_call_exit
  by_cases h : nsistExit = 0 <;> simp [h]

end Porcupine
